import Mathlib

/-!
Shallow embedding of `pyrCRT/curveFitting.py` (the pyrCRT repository's single
source module) and proofs about it.

Modelling conventions:
* numpy arrays of floats become `List ℝ`; element-wise operations become `List.map`
  / `List.zipWith`.
* caller-supplied initial guesses (`p0`) are lists of Python numeric literals, so they
  are modelled as `List ℚ`; this lets Python's f-string interpolation of `p0` into
  error messages be modelled as a computable rendering.
* `scipy.optimize.curve_fit` is an external capability (spec section 6); it is an
  oracle parameter `CurveFitOracle` receiving exactly what the source passes it:
  the model function being fitted, `xdata`, `ydata`, `p0` and `bounds`.
* the module-level `filterwarnings("error")` (line 17 of the source) turns warnings
  into raised exceptions: `OptimizeWarning` from the solver becomes the oracle
  outcome `SolverOutcome.warn`, and numpy's divide-by-zero `RuntimeWarning` becomes
  `PyError.runtimeWarning`.
* Python exceptions become `Except PyError`; `RuntimeError`, `TypeError` and the
  promoted `RuntimeWarning` are the three constructors of `PyError`.
* `scipy.signal.find_peaks` is an external capability; modelled from the spec
  (section 6): indices of interior points strictly greater than both immediate
  neighbors.
-/

namespace PyrCRT

/-- Python exceptions raised by the module: `RuntimeError(msg)`, `TypeError(msg)`,
and a warning promoted to an error by `filterwarnings("error")` (source line 17),
which is how a numpy divide-by-zero surfaces. -/
inductive PyError where
  | runtimeError (msg : String) : PyError
  | typeError (msg : String) : PyError
  | runtimeWarning (msg : String) : PyError
deriving DecidableEq

/-- The model function handed to `curve_fit` as its `f` argument. -/
inductive ModelKind where
  | exponentialModel : ModelKind
  | polynomialModel : ModelKind
deriving DecidableEq

/-- The `bounds` argument of `curve_fit`: either a scalar pair broadcast over all
parameters (as in `fitPolynomial`) or a pair of per-parameter vectors (as in
`fitExponential`); `np.inf` values are modelled in `EReal`. -/
inductive PyBounds where
  | scalar (lo hi : EReal) : PyBounds
  | vecs (lo hi : List EReal) : PyBounds

/-- Outcome of one `curve_fit` call: optimized parameters together with the
covariance matrix, or a raised `RuntimeError` (non-convergence), or a raised
`OptimizeWarning` (promoted to an exception by `filterwarnings("error")`). -/
inductive SolverOutcome where
  | ok (params : List ℝ) (cov : List (List ℝ)) : SolverOutcome
  | fail : SolverOutcome
  | warn : SolverOutcome

/-- The external bounded nonlinear least-squares solver (`scipy.optimize.curve_fit`),
abstracted as an oracle: model function, `xdata`, `ydata`, `p0`, `bounds`. -/
def CurveFitOracle : Type :=
  ModelKind → List ℝ → List ℝ → List ℚ → PyBounds → SolverOutcome

/-- Python slicing `l[:n]`: a non-negative `n` keeps the first `n` elements (clamped
at the length), a negative `n` drops the last `-n` elements. -/
def pySliceTo {α : Type} (l : List α) (n : ℤ) : List α :=
  if 0 ≤ n then l.take n.toNat else l.take ((l.length : ℤ) + n).toNat

/-- Rendering of one initial-guess entry, standing in for Python's `repr` of the
float (an integral value prints with a trailing `.0`, as Python does). -/
def pyNumRepr (q : ℚ) : String :=
  if q.den = 1 then toString q.num ++ ".0" else toString q

/-- Rendering of a Python list of numbers, e.g. `[1.0, -0.3, 0.0]`. -/
def pyNumListRepr (l : List ℚ) : String :=
  "[" ++ String.intercalate ", " (l.map pyNumRepr) ++ "]"

/-- Rendering of a Python list of ints, e.g. `[5, 10, 15]`. -/
def pyIntListRepr (l : List ℤ) : String :=
  "[" ++ String.intercalate ", " (l.map toString) ++ "]"

/-- Message of the `RuntimeError` raised by `fitExponential` (source line 120). -/
def expFitFailMsg (p0 : List ℚ) : String :=
  "Exponential fit failed with p0=" ++ pyNumListRepr p0 ++ "."

/-- Message of the `RuntimeError` raised by `fitPolynomial` (source line 176). -/
def polyFitFailMsg (p0 : List ℚ) : String :=
  "Polynomial fit failed with p0=" ++ pyNumListRepr p0 ++ "."

/-- Message of the `RuntimeError` raised by `fitRCRT` when the single `maxDiv`
index fails (source lines 268-270); here the f-string interpolates both values. -/
def rcrtSingleFailMsg (maxDivIndex : ℤ) (p0 : List ℚ) : String :=
  "rCRT fit failed on maxDivIndex=" ++ toString maxDivIndex ++ " and p0=" ++
    pyNumListRepr p0

/-- Message of the `RuntimeError` raised by `fitRCRT` after every candidate in the
list failed (source lines 256-258). The source builds it from two adjacent string
literals, and only the first carries the `f` prefix, so the second fragment's
`\x7bp0\x7d` is NOT interpolated: the literal characters appear in the message and
the actual initial guess does not. -/
def rcrtListFailMsg (maxDivList : List ℤ) : String :=
  "rCRT fit failed on all maxDivIndexes (" ++ pyIntListRepr maxDivList ++
    "), with p0=\x7bp0\x7d."

/-- Message of the `TypeError` raised by `fitRCRT` on a `maxDiv` of unsupported
type (source lines 271-274); the source interpolates `type(maxDiv)`, which for the
floating-point exemplar renders as below. -/
def maxDivTypeErrorMsg : String :=
  "Invalid type of <class \x27float\x27> for maxDiv. Valid types: int, list of " ++
    "ints or None. Please refer to the documentation for usage instructions."

/-- Message of numpy's divide-by-zero `RuntimeWarning`, raised as an error because
of `filterwarnings("error")`. -/
def divideByZeroMsg : String :=
  "divide by zero encountered in double_scalars"

/-- Source `exponential(x, a, b, c)`: element-wise `a*exp(b*x)+c`. -/
noncomputable def exponential (x : List ℝ) (a b c : ℝ) : List ℝ :=
  x.map (fun t => a * Real.exp (b * t) + c)

/-- Power-series evaluation `coefs[0] + coefs[1]*t + coefs[2]*t^2 + ...`, the
semantics of `np.polynomial.Polynomial(list(coefs))(t)`, in Horner form. -/
noncomputable def polyEval (coefs : List ℝ) (t : ℝ) : ℝ :=
  coefs.foldr (fun c acc => c + t * acc) 0

/-- Source `polynomial(x, *coefs)`: element-wise power-series evaluation. -/
noncomputable def polynomial (x : List ℝ) (coefs : List ℝ) : List ℝ :=
  x.map (polyEval coefs)

/-- Source `covToStdDev(cov)`: `np.sqrt(np.diag(cov))`, the element-wise square
root of the covariance matrix's diagonal. -/
noncomputable def covToStdDev (cov : List (List ℝ)) : List ℝ :=
  (List.range cov.length).map (fun i => Real.sqrt (((cov.getD i []).getD i 0)))

/-- Default initial guess for the exponential fit, `[1.0, -0.3, 0.0]`; the same
literal appears in `fitExponential` (source line 107) and `fitRCRT` (line 242). -/
def expDefaultP0 : List ℚ := [1, -3/10, 0]

/-- Default initial guess for the polynomial fit: seven zeros (source line 163). -/
def polyDefaultP0 : List ℚ := [0, 0, 0, 0, 0, 0, 0]

/-- The `bounds` argument `([0.0, -np.inf, -np.inf], [np.inf, 0.0, np.inf])` passed
by `fitExponential` (source line 115). -/
def expBounds : PyBounds :=
  .vecs [(0 : EReal), ⊥, ⊥] [⊤, (0 : EReal), ⊤]

/-- The `bounds` argument `(-np.inf, np.inf)` passed by `fitPolynomial`
(source line 171). -/
def polyBounds : PyBounds := .scalar ⊥ ⊤

/-- Source `fitExponential(x, y, p0)`: resolve the default guess, call `curve_fit`
on the `exponential` model with the fixed sign bounds, turn the covariance into
standard deviations on success, and turn either a solver `RuntimeError` or an
`OptimizeWarning` into one `RuntimeError` carrying the attempted guess. -/
noncomputable def fitExponential (cf : CurveFitOracle) (x y : List ℝ)
    (p0? : Option (List ℚ)) : Except PyError (List ℝ × List ℝ) :=
  let p0 := p0?.getD expDefaultP0
  match cf .exponentialModel x y p0 expBounds with
  | .ok expParams expCov => .ok (expParams, covToStdDev expCov)
  | .fail => .error (.runtimeError (expFitFailMsg p0))
  | .warn => .error (.runtimeError (expFitFailMsg p0))

/-- Source `fitPolynomial(x, y, p0)`: same failure contract as `fitExponential`,
with the seven-zero default guess and unconstrained bounds. -/
noncomputable def fitPolynomial (cf : CurveFitOracle) (x y : List ℝ)
    (p0? : Option (List ℚ)) : Except PyError (List ℝ × List ℝ) :=
  let p0 := p0?.getD polyDefaultP0
  match cf .polynomialModel x y p0 polyBounds with
  | .ok polyParams polyCov => .ok (polyParams, covToStdDev polyCov)
  | .fail => .error (.runtimeError (polyFitFailMsg p0))
  | .warn => .error (.runtimeError (polyFitFailMsg p0))

/-- Source `diffExpPoly(x, expParams, polyParams)`: the element-wise absolute
difference between the two evaluated models over `x`. The exponential parameter
vector is unpacked positionally into `a`, `b`, `c` as `exponential(x, *expParams)`
does. -/
noncomputable def diffExpPoly (x : List ℝ) (expParams polyParams : List ℝ) :
    List ℝ :=
  List.zipWith (fun u v => |u - v|)
    (exponential x (expParams.getD 0 0) (expParams.getD 1 0) (expParams.getD 2 0))
    (polynomial x polyParams)

/-- Modelled from the spec: `scipy.signal.find_peaks`, the external local-maxima
detector of the capability boundary (spec section 6) — "returns indices of interior
points strictly greater than both immediate neighbors". -/
noncomputable def find_peaks (l : List ℝ) : List ℕ :=
  (List.range l.length).filter (fun i =>
    0 < i ∧ i + 1 < l.length ∧ l.getD (i - 1) 0 < l.getD i 0 ∧
      l.getD (i + 1) 0 < l.getD i 0)

/-- Python's `sorted(l, key=key, reverse=True)` on a list of indices: a stable
merge sort under the descending key order. -/
noncomputable def pySortedByKeyDesc (key : ℕ → ℝ) (l : List ℕ) : List ℕ :=
  l.mergeSort (fun i j => key j ≤ key i)

/-- Source `findMaxDivergencePeaks(x, expTuple=..., polyTuple=...)` (the pre-fitted
branch, lines 386-394): take the parameter vectors (first components) of both
tuples, build the absolute-difference curve, find its peaks, and sort the peak
indices by the difference value there, descending. -/
noncomputable def findMaxDivergencePeaksFromFits (x : List ℝ)
    (expTuple polyTuple : List ℝ × List ℝ) : List ℕ :=
  let diffArray := diffExpPoly x expTuple.1 polyTuple.1
  pySortedByKeyDesc (fun i => diffArray.getD i 0) (find_peaks diffArray)

/-- Source `findMaxDivergencePeaks(x, y)` (the raw-series branch, lines 396-400):
fit both models on the full series with default guesses, then rank the divergence
peaks; a failure of either fit propagates. -/
noncomputable def findMaxDivergencePeaks (cf : CurveFitOracle) (x y : List ℝ) :
    Except PyError (List ℕ) := do
  let expTuple ← fitExponential cf x y none
  let polyTuple ← fitPolynomial cf x y none
  return findMaxDivergencePeaksFromFits x expTuple polyTuple

/-- Body of `fitRCRT`'s single-index branch (source lines 259-270): slice both
arrays at the index, attempt one exponential fit, and wrap a `RuntimeError` with
the index and the guess; the source's `except RuntimeError` clause lets any other
exception kind propagate unwrapped. -/
noncomputable def fitRCRTSingle (cf : CurveFitOracle) (x y : List ℝ)
    (p0 : List ℚ) (maxDivIndex : ℤ) : Except PyError ((List ℝ × List ℝ) × ℤ) :=
  match fitExponential cf (pySliceTo x maxDivIndex) (pySliceTo y maxDivIndex)
      (some p0) with
  | .ok t => .ok (t, maxDivIndex)
  | .error (.runtimeError _) =>
      .error (.runtimeError (rcrtSingleFailMsg maxDivIndex p0))
  | .error e => .error e

/-- Body of `fitRCRT`'s list branch (source lines 245-258): try each candidate in
order through the single-index branch (the source's recursive call with an `int`
`maxDiv`), return the first success, absorb each `RuntimeError` (only), and after
the loop raise the aggregate `RuntimeError` naming the full original list
(`full`). -/
noncomputable def fitRCRTList (cf : CurveFitOracle) (x y : List ℝ) (p0 : List ℚ)
    (full : List ℤ) : List ℤ → Except PyError ((List ℝ × List ℝ) × ℤ)
  | [] => .error (.runtimeError (rcrtListFailMsg full))
  | maxDivIndex :: rest =>
    match fitRCRTSingle cf x y p0 maxDivIndex with
    | .ok r => .ok r
    | .error (.runtimeError _) => fitRCRTList cf x y p0 full rest
    | .error e => .error e

/-- The `maxDiv` argument of `fitRCRT`: absent (`None`), a single `int`, a list of
`int`s, or a value of an unsupported type — exemplified, as in the spec, by a
`float`. -/
inductive MaxDivArg where
  | none : MaxDivArg
  | int (n : ℤ) : MaxDivArg
  | list (l : List ℤ) : MaxDivArg
  | float (q : ℚ) : MaxDivArg

/-- Source `fitRCRT(x, y, p0, maxDiv)` (lines 195-279). The source's recursive
calls are inlined one step, which is exact: the list branch's recursive call with
an `int` `maxDiv` and the same `p0` lands in the single-index branch
(`fitRCRTSingle`), and the auto-discovery branch's recursive call
`fitRCRT(x, y, maxDiv=maxDiv)` (line 279) omits `p0`, so it re-resolves `p0` to
the default guess `[1.0, -0.3, 0.0]` before landing in the list branch. -/
noncomputable def fitRCRT (cf : CurveFitOracle) (x y : List ℝ)
    (p0? : Option (List ℚ)) (maxDiv : MaxDivArg) :
    Except PyError ((List ℝ × List ℝ) × ℤ) :=
  let p0 := p0?.getD expDefaultP0
  match maxDiv with
  | .list l => fitRCRTList cf x y p0 l l
  | .int n => fitRCRTSingle cf x y p0 n
  | .float _ => .error (.typeError maxDivTypeErrorMsg)
  | .none =>
    match findMaxDivergencePeaks cf x y with
    | .error e => .error e
    | .ok peaks =>
        fitRCRTList cf x y expDefaultP0 (peaks.map Int.ofNat)
          (peaks.map Int.ofNat)

/-- Source `rCRTFromParameters(rCRTTuple)` (lines 285-318): read the decay-rate
slot `b` and its standard deviation (index 1 of each vector), compute
`rCRT = -1/b` and `-2*rCRT*(sigma_b/b)`. When `b` is exactly zero the division
emits numpy's divide-by-zero warning, raised as an error by
`filterwarnings("error")`. Indexing is modelled as `getD` with default `0`; the
Python `IndexError` on vectors shorter than 2 is not exercised here. -/
noncomputable def rCRTFromParameters (rCRTTuple : List ℝ × List ℝ) :
    Except PyError (ℝ × ℝ) :=
  let inverseRCRT := rCRTTuple.1.getD 1 0
  let inverseRCRTStdDev := rCRTTuple.2.getD 1 0
  if inverseRCRT = 0 then .error (.runtimeWarning divideByZeroMsg)
  else
    let rCRT := -1 / inverseRCRT
    .ok (rCRT, -2 * rCRT * (inverseRCRTStdDev / inverseRCRT))

/-- Source `calculateRelativeUncertainty(rCRTTuple)` (lines 324-333):
`2 * abs(rCRTStdDev[1] / rCRTParams[1])`, with the same divide-by-zero promotion
when the decay-rate slot is zero. -/
noncomputable def calculateRelativeUncertainty (rCRTTuple : List ℝ × List ℝ) :
    Except PyError ℝ :=
  if rCRTTuple.1.getD 1 0 = 0 then .error (.runtimeWarning divideByZeroMsg)
  else .ok (2 * |rCRTTuple.2.getD 1 0 / rCRTTuple.1.getD 1 0|)

/-- Oracle standing for a solver run that ends in an `OptimizeWarning`. -/
def alwaysWarnOracle : CurveFitOracle := fun _ _ _ _ _ => .warn

/-- Oracle standing for a solver run that ends in non-convergence. -/
def alwaysFailOracle : CurveFitOracle := fun _ _ _ _ _ => .fail

/-- Oracle that converges exactly when the sliced data has ten samples; used to
exercise the candidate loop of `fitRCRT`. -/
noncomputable def lenTenOkOracle : CurveFitOracle := fun _ xs _ _ _ =>
  if xs.length = 10 then .ok [1, -1, 0] [[0, 0, 0], [0, 0, 0], [0, 0, 0]]
  else .fail

/-- A twelve-sample time axis used to exercise the candidate loop. -/
noncomputable def xTwelve : List ℝ := [0, 1, 2, 3, 4, 5, 6, 7, 8, 9, 10, 11]

/-- The fit tuple `lenTenOkOracle` produces on a ten-sample slice. -/
noncomputable def lenTenOkResult : List ℝ × List ℝ :=
  ([1, -1, 0], covToStdDev [[0, 0, 0], [0, 0, 0], [0, 0, 0]])

/-- Case analysis for `fitExponential`: the wrapped call either succeeds or
raises the one `RuntimeError` carrying the resolved initial guess. -/
theorem fitExponential_ok_or_runtimeError (cf : CurveFitOracle) (x y : List ℝ)
    (p0? : Option (List ℚ)) :
    (∃ t, fitExponential cf x y p0? = .ok t) ∨
      fitExponential cf x y p0? =
        .error (.runtimeError (expFitFailMsg (p0?.getD expDefaultP0))) := by
  cases h : cf .exponentialModel x y (p0?.getD expDefaultP0) expBounds with
  | ok a b =>
      exact .inl ⟨(a, covToStdDev b), by simp only [fitExponential, h]⟩
  | fail => exact .inr (by simp only [fitExponential, h])
  | warn => exact .inr (by simp only [fitExponential, h])

/-- When the sliced exponential fit succeeds, the single-index branch returns the
tuple with the index. -/
theorem fitRCRTSingle_of_ok {cf : CurveFitOracle} {x y : List ℝ} {p0 : List ℚ}
    {idx : ℤ} {t : List ℝ × List ℝ}
    (h : fitExponential cf (pySliceTo x idx) (pySliceTo y idx) (some p0) = .ok t) :
    fitRCRTSingle cf x y p0 idx = .ok (t, idx) := by
  unfold fitRCRTSingle
  rw [h]

/-- When the sliced exponential fit does not succeed, the single-index branch
raises the wrapped `RuntimeError` naming the index and the guess. -/
theorem fitRCRTSingle_of_not_ok {cf : CurveFitOracle} {x y : List ℝ}
    {p0 : List ℚ} {idx : ℤ}
    (h : ∀ t, fitExponential cf (pySliceTo x idx) (pySliceTo y idx) (some p0) ≠ .ok t) :
    fitRCRTSingle cf x y p0 idx =
      .error (.runtimeError (rcrtSingleFailMsg idx p0)) := by
  rcases fitExponential_ok_or_runtimeError cf (pySliceTo x idx) (pySliceTo y idx)
      (some p0) with ⟨t, ht⟩ | herr
  · exact absurd ht (h t)
  · unfold fitRCRTSingle
    rw [herr]

/-- The candidate loop skips over any prefix of candidates whose fits fail. -/
theorem fitRCRTList_skip {cf : CurveFitOracle} {x y : List ℝ} {p0 : List ℚ}
    {full : List ℤ} {l₁ : List ℤ}
    (h : ∀ j ∈ l₁, ∀ t,
      fitExponential cf (pySliceTo x j) (pySliceTo y j) (some p0) ≠ .ok t)
    (l : List ℤ) :
    fitRCRTList cf x y p0 full (l₁ ++ l) = fitRCRTList cf x y p0 full l := by
  induction l₁ with
  | nil => rfl
  | cons a rest ih =>
    have ha : fitRCRTSingle cf x y p0 a =
        .error (.runtimeError (rcrtSingleFailMsg a p0)) :=
      fitRCRTSingle_of_not_ok (h a (by simp))
    rw [List.cons_append, fitRCRTList, ha]
    exact ih (fun j hj => h j (by simp [hj]))

/-- C2: for every `x`, `y` and every `maxDiv` list, `fitRCRT` tries the candidates
strictly in list order, slicing `x[:idx]`, `y[:idx]` and attempting one
exponential fit per candidate, absorbs each individual fit failure, and returns
the pair `(FitResult, idx)` of the first candidate whose fit succeeds, regardless
of the candidates that come after it. -/
theorem fitRCRT_list_first_success (cf : CurveFitOracle) (x y : List ℝ)
    (p0? : Option (List ℚ)) (l₁ l₂ : List ℤ) (idx : ℤ) (res : List ℝ × List ℝ)
    (hfail : ∀ j ∈ l₁, ∀ t,
      fitExponential cf (pySliceTo x j) (pySliceTo y j)
        (some (p0?.getD expDefaultP0)) ≠ .ok t)
    (hsucc : fitExponential cf (pySliceTo x idx) (pySliceTo y idx)
      (some (p0?.getD expDefaultP0)) = .ok res) :
    fitRCRT cf x y p0? (.list (l₁ ++ idx :: l₂)) = .ok (res, idx) := by
  show fitRCRTList cf x y (p0?.getD expDefaultP0) (l₁ ++ idx :: l₂)
      (l₁ ++ idx :: l₂) = .ok (res, idx)
  rw [fitRCRTList_skip hfail, fitRCRTList, fitRCRTSingle_of_ok hsucc]

/-- C7: a `maxDiv` of unsupported type (the floating-point exemplar) makes
`fitRCRT` raise the invalid-argument `TypeError` — a condition distinct from the
`RuntimeError` fit failures — and the result does not depend on the solver at
all, so no curve fit is attempted. -/
theorem fitRCRT_invalid_maxDiv_type_error (cf cf' : CurveFitOracle)
    (x y : List ℝ) (p0? : Option (List ℚ)) (q : ℚ) :
    fitRCRT cf x y p0? (.float q) = .error (.typeError maxDivTypeErrorMsg) ∧
    fitRCRT cf x y p0? (.float q) = fitRCRT cf' x y p0? (.float q) ∧
    (∀ m, PyError.typeError maxDivTypeErrorMsg ≠ .runtimeError m) :=
  ⟨rfl, rfl, by simp⟩

/-- C9: calling `fitRCRT` with `maxDiv` absent discards the caller's `p0`: the
result is the same as with no `p0` at all, because after auto-discovering the
candidate indices the source re-enters itself without forwarding `p0`, so every
candidate fit runs with the default initial guess `expDefaultP0 = [1.0, -0.3,
0.0]`. -/
theorem fitRCRT_autodiscovery_discards_p0 (cf : CurveFitOracle) (x y : List ℝ)
    (g : List ℚ) :
    fitRCRT cf x y (some g) .none = fitRCRT cf x y none .none ∧
    fitRCRT cf x y (some g) .none =
      (match findMaxDivergencePeaks cf x y with
        | .error e => .error e
        | .ok peaks =>
            fitRCRTList cf x y expDefaultP0 (peaks.map Int.ofNat)
              (peaks.map Int.ofNat)) :=
  ⟨rfl, rfl⟩

/-- C6: a `FitResult` whose decay-rate slot `b` is exactly zero makes
`rCRTFromParameters` raise the divide-by-zero condition (numpy's warning promoted
to an error), which is a constructor distinct from both the fit-failure
`RuntimeError` and the invalid-argument `TypeError`. -/
theorem rCRTFromParameters_zero_decay_division_failure (p s : List ℝ)
    (hb : p.getD 1 0 = 0) :
    rCRTFromParameters (p, s) = .error (.runtimeWarning divideByZeroMsg) ∧
    (∀ m, PyError.runtimeWarning divideByZeroMsg ≠ .runtimeError m) ∧
    (∀ m, PyError.runtimeWarning divideByZeroMsg ≠ .typeError m) := by
  refine ⟨?_, by simp, by simp⟩
  have hb' : p[1]?.getD 0 = 0 := by simpa using hb
  simp [rCRTFromParameters, hb']

/-- Witness for C6 at the concrete parameters `(a, b, c) = (1, 0, 0)`. -/
theorem rCRTFromParameters_zero_decay_division_failure_witness :
    (([1, 0, 0] : List ℝ).getD 1 0 = 0) ∧
    (rCRTFromParameters ([1, 0, 0], [0, 0, 0]) =
        .error (.runtimeWarning divideByZeroMsg) ∧
      (∀ m, PyError.runtimeWarning divideByZeroMsg ≠ .runtimeError m) ∧
      (∀ m, PyError.runtimeWarning divideByZeroMsg ≠ .typeError m)) :=
  ⟨rfl, rCRTFromParameters_zero_decay_division_failure [1, 0, 0] [0, 0, 0] rfl⟩

/-- C10: the pre-fitted mode of the divergence-peak finder reads only the
parameter vectors (the first components of the two tuples): changing the
standard-deviation vectors arbitrarily cannot change the returned index list. -/
theorem findMaxDivergencePeaks_ignores_stddev (x : List ℝ)
    (pe se se' pp sp sp' : List ℝ) :
    findMaxDivergencePeaksFromFits x (pe, se) (pp, sp) =
      findMaxDivergencePeaksFromFits x (pe, se') (pp, sp') := rfl

/-- C1: on an exponential `FitResult` whose decay-rate slot `b` is nonzero, with a
non-negative standard deviation, `rCRTFromParameters` returns `rCRT = -1/b` and
the uncertainty `2*|rCRT|*(sigma_b/|b|)` (the code's `-2*rCRT*(sigma_b/b)` equals
that expression). -/
theorem rCRTFromParameters_formula (p s : List ℝ)
    (hb : p.getD 1 0 ≠ 0) (_hs : 0 ≤ s.getD 1 0) :
    rCRTFromParameters (p, s) =
      .ok (-1 / p.getD 1 0,
        2 * |-1 / p.getD 1 0| * (s.getD 1 0 / |p.getD 1 0|)) := by
  have key : -2 * (-1 / p.getD 1 0) * (s.getD 1 0 / p.getD 1 0) =
      2 * |-1 / p.getD 1 0| * (s.getD 1 0 / |p.getD 1 0|) := by
    rw [abs_div, abs_neg, abs_one]
    have habs : |p.getD 1 0| ≠ 0 := abs_ne_zero.mpr hb
    field_simp
  simp only [rCRTFromParameters]
  rw [if_neg hb, key]

/-- Witness for C1 at the spec's two example inputs: decay rate `-0.5` yields
`rCRT = 2.0` (with uncertainty `0.8` for `sigma_b = 0.1`), and decay rate `-1.0`
yields `rCRT = 1.0`. -/
theorem rCRTFromParameters_formula_witness :
    (([1, -1/2, 0] : List ℝ).getD 1 0 ≠ 0) ∧
    ((0 : ℝ) ≤ ([0, 1/10, 0] : List ℝ).getD 1 0) ∧
    rCRTFromParameters ([1, -1/2, 0], [0, 1/10, 0]) = .ok (2, 4/5) ∧
    rCRTFromParameters ([1, -1, 0], [0, 0, 0]) = .ok (1, 0) := by
  refine ⟨by norm_num, by norm_num, ?_, ?_⟩
  · rw [rCRTFromParameters_formula [1, -1/2, 0] [0, 1/10, 0] (by norm_num)
      (by norm_num)]
    norm_num
    rw [abs_of_nonneg (by norm_num : (0 : ℝ) ≤ 1/2)]
    norm_num
  · rw [rCRTFromParameters_formula [1, -1, 0] [0, 0, 0] (by norm_num) (by norm_num)]
    norm_num

/-- Scaling every entry of a list commutes with `getD` at default `0`. -/
theorem getD_map_mul (k : ℝ) : ∀ (l : List ℝ) (n : ℕ),
    (l.map (fun v => k * v)).getD n 0 = k * l.getD n 0
  | [], _ => by simp
  | _ :: _, 0 => by simp
  | _ :: l, n + 1 => by simpa using getD_map_mul k l n

/-- C8: on a `FitResult` with nonzero decay-rate slot `b`,
`calculateRelativeUncertainty` returns `2*|sigma_b/b|`, and the value is
invariant under uniform scaling of the parameter and standard-deviation vectors
by any `k > 0`. -/
theorem calculateRelativeUncertainty_scale_invariant (p s : List ℝ) (k : ℝ)
    (hb : p.getD 1 0 ≠ 0) (hk : 0 < k) :
    calculateRelativeUncertainty (p, s) = .ok (2 * |s.getD 1 0 / p.getD 1 0|) ∧
    calculateRelativeUncertainty
        (p.map (fun v => k * v), s.map (fun v => k * v)) =
      calculateRelativeUncertainty (p, s) := by
  have hk0 : k ≠ 0 := ne_of_gt hk
  have h1 : calculateRelativeUncertainty (p, s) =
      .ok (2 * |s.getD 1 0 / p.getD 1 0|) := by
    simp only [calculateRelativeUncertainty]
    rw [if_neg hb]
  refine ⟨h1, ?_⟩
  rw [h1]
  simp only [calculateRelativeUncertainty, getD_map_mul]
  rw [if_neg (mul_ne_zero hk0 hb), mul_div_mul_left _ _ hk0]

/-- Witness for C8 at `b = -2`, `sigma_b = 3`, scale `k = 5`. -/
theorem calculateRelativeUncertainty_scale_invariant_witness :
    (([1, -2] : List ℝ).getD 1 0 ≠ 0) ∧ ((0 : ℝ) < 5) ∧
    (calculateRelativeUncertainty ([1, -2], [0, 3]) =
        .ok (2 * |([0, 3] : List ℝ).getD 1 0 / ([1, -2] : List ℝ).getD 1 0|) ∧
      calculateRelativeUncertainty
          (([1, -2] : List ℝ).map (fun v => (5 : ℝ) * v),
            ([0, 3] : List ℝ).map (fun v => (5 : ℝ) * v)) =
        calculateRelativeUncertainty ([1, -2], [0, 3])) :=
  ⟨by norm_num, by norm_num,
    calculateRelativeUncertainty_scale_invariant [1, -2] [0, 3] 5 (by norm_num)
      (by norm_num)⟩

/-- C4: for either model, a solver run that ends in an `OptimizeWarning` produces
exactly the same raised failure as a run that ends in outright non-convergence —
the one `RuntimeError` carrying the attempted initial guess — and never a
successful `FitResult`. -/
theorem optimizer_warning_promoted_to_fit_failure (cfW cfF : CurveFitOracle)
    (x y : List ℝ) (p0? : Option (List ℚ))
    (hWe : cfW .exponentialModel x y (p0?.getD expDefaultP0) expBounds = .warn)
    (hFe : cfF .exponentialModel x y (p0?.getD expDefaultP0) expBounds = .fail)
    (hWp : cfW .polynomialModel x y (p0?.getD polyDefaultP0) polyBounds = .warn)
    (hFp : cfF .polynomialModel x y (p0?.getD polyDefaultP0) polyBounds = .fail) :
    fitExponential cfW x y p0? =
      .error (.runtimeError (expFitFailMsg (p0?.getD expDefaultP0))) ∧
    fitExponential cfW x y p0? = fitExponential cfF x y p0? ∧
    (∀ t, fitExponential cfW x y p0? ≠ .ok t) ∧
    fitPolynomial cfW x y p0? =
      .error (.runtimeError (polyFitFailMsg (p0?.getD polyDefaultP0))) ∧
    fitPolynomial cfW x y p0? = fitPolynomial cfF x y p0? ∧
    (∀ t, fitPolynomial cfW x y p0? ≠ .ok t) := by
  simp [fitExponential, fitPolynomial, hWe, hFe, hWp, hFp]

/-- Witness for C4: a constantly-warning oracle against a constantly-failing one,
on empty data with the default guesses. -/
theorem optimizer_warning_promoted_to_fit_failure_witness :
    (alwaysWarnOracle .exponentialModel [] []
        ((none : Option (List ℚ)).getD expDefaultP0) expBounds = .warn) ∧
    (alwaysFailOracle .exponentialModel [] []
        ((none : Option (List ℚ)).getD expDefaultP0) expBounds = .fail) ∧
    (alwaysWarnOracle .polynomialModel [] []
        ((none : Option (List ℚ)).getD polyDefaultP0) polyBounds = .warn) ∧
    (alwaysFailOracle .polynomialModel [] []
        ((none : Option (List ℚ)).getD polyDefaultP0) polyBounds = .fail) ∧
    (fitExponential alwaysWarnOracle [] [] none =
        .error (.runtimeError
          (expFitFailMsg ((none : Option (List ℚ)).getD expDefaultP0))) ∧
      fitExponential alwaysWarnOracle [] [] none =
        fitExponential alwaysFailOracle [] [] none ∧
      (∀ t, fitExponential alwaysWarnOracle [] [] none ≠ .ok t) ∧
      fitPolynomial alwaysWarnOracle [] [] none =
        .error (.runtimeError
          (polyFitFailMsg ((none : Option (List ℚ)).getD polyDefaultP0))) ∧
      fitPolynomial alwaysWarnOracle [] [] none =
        fitPolynomial alwaysFailOracle [] [] none ∧
      (∀ t, fitPolynomial alwaysWarnOracle [] [] none ≠ .ok t)) :=
  ⟨rfl, rfl, rfl, rfl,
    optimizer_warning_promoted_to_fit_failure alwaysWarnOracle alwaysFailOracle
      [] [] none rfl rfl rfl rfl⟩

/-- Witness for C2: candidates `[5, 10, 15]` against an oracle that converges
exactly on a ten-sample slice — the fit at `5` fails, the fit at `10` succeeds,
and `fitRCRT` returns the result with index `10` even though `15` follows. -/
theorem fitRCRT_list_first_success_witness :
    (∀ j ∈ ([5] : List ℤ), ∀ t,
      fitExponential lenTenOkOracle (pySliceTo xTwelve j) (pySliceTo xTwelve j)
        (some ((some [2, -1, 0] : Option (List ℚ)).getD expDefaultP0)) ≠
          .ok t) ∧
    fitExponential lenTenOkOracle (pySliceTo xTwelve 10) (pySliceTo xTwelve 10)
      (some ((some [2, -1, 0] : Option (List ℚ)).getD expDefaultP0)) =
        .ok lenTenOkResult ∧
    fitRCRT lenTenOkOracle xTwelve xTwelve (some [2, -1, 0])
      (.list ([5] ++ 10 :: [15])) = .ok (lenTenOkResult, 10) := by
  have h1 : ∀ j ∈ ([5] : List ℤ), ∀ t,
      fitExponential lenTenOkOracle (pySliceTo xTwelve j) (pySliceTo xTwelve j)
        (some ((some [2, -1, 0] : Option (List ℚ)).getD expDefaultP0)) ≠
          .ok t := by
    intro j hj t
    simp only [List.mem_singleton] at hj
    subst hj
    simp [fitExponential, lenTenOkOracle, pySliceTo, xTwelve]
  have h2 : fitExponential lenTenOkOracle (pySliceTo xTwelve 10)
      (pySliceTo xTwelve 10)
      (some ((some [2, -1, 0] : Option (List ℚ)).getD expDefaultP0)) =
        .ok lenTenOkResult := by
    simp [fitExponential, lenTenOkOracle, pySliceTo, xTwelve, lenTenOkResult]
  exact ⟨h1, h2,
    fitRCRT_list_first_success lenTenOkOracle xTwelve xTwelve (some [2, -1, 0])
      [5] [15] 10 lenTenOkResult h1 h2⟩

/-- C5 (code bug): when every candidate fails, the aggregate `RuntimeError`
message names the list of attempted indices but NOT the initial guess actually
used — the source concatenates an f-string with a plain string, so the literal
characters `\x7bp0\x7d` appear in place of the guess, and the message is the
same for different guesses. -/
theorem fitRCRT_aggregate_message_omits_p0 :
    fitRCRT alwaysFailOracle [0, 1, 2] [0, 1, 2] (some [7, -3, 9]) (.list [5]) =
      .error (.runtimeError
        "rCRT fit failed on all maxDivIndexes ([5]), with p0=\x7bp0\x7d.") ∧
    fitRCRT alwaysFailOracle [0, 1, 2] [0, 1, 2] (some [7, -3, 9]) (.list [5]) =
      fitRCRT alwaysFailOracle [0, 1, 2] [0, 1, 2] (some [1, 2, 3])
        (.list [5]) :=
  ⟨rfl, rfl⟩

/-- Membership in the modelled peak detector is exactly the interior
strict-local-maximum condition. -/
theorem mem_find_peaks (l : List ℝ) (i : ℕ) :
    i ∈ find_peaks l ↔
      (0 < i ∧ i + 1 < l.length ∧ l.getD (i - 1) 0 < l.getD i 0 ∧
        l.getD (i + 1) 0 < l.getD i 0) := by
  unfold find_peaks
  rw [List.mem_filter, List.mem_range]
  simp only [decide_eq_true_eq]
  constructor
  · rintro ⟨-, h⟩
    exact h
  · intro h
    exact ⟨Nat.lt_of_succ_lt h.2.1, h⟩

/-- The peak detector returns each index at most once. -/
theorem find_peaks_nodup (l : List ℝ) : (find_peaks l).Nodup := by
  unfold find_peaks
  exact List.Nodup.filter _ (List.nodup_range l.length)

/-- Sorting with a key never changes the set of elements. -/
theorem mem_pySortedByKeyDesc (key : ℕ → ℝ) (l : List ℕ) (i : ℕ) :
    i ∈ pySortedByKeyDesc key l ↔ i ∈ l := by
  unfold pySortedByKeyDesc
  exact List.mem_mergeSort

/-- Sorting with a key preserves freedom from duplicates. -/
theorem nodup_pySortedByKeyDesc (key : ℕ → ℝ) (l : List ℕ) (h : l.Nodup) :
    (pySortedByKeyDesc key l).Nodup := by
  unfold pySortedByKeyDesc
  exact (List.mergeSort_perm l _).nodup_iff.mpr h

/-- Sorting with a key in reverse order yields a list that is pairwise descending
in the key. -/
theorem pairwise_pySortedByKeyDesc (key : ℕ → ℝ) (l : List ℕ) :
    (pySortedByKeyDesc key l).Pairwise (fun i j => key j ≤ key i) := by
  unfold pySortedByKeyDesc
  have h := @List.sorted_mergeSort ℕ (fun i j => decide (key j ≤ key i))
    (fun a b c h1 h2 => by
      simp only [decide_eq_true_eq] at h1 h2 ⊢
      exact le_trans h2 h1)
    (fun a b => by
      simp only [Bool.or_eq_true, decide_eq_true_eq]
      exact le_total (key b) (key a))
    l
  exact h.imp (fun hb => by simpa using hb)

/-- C3: in pre-fitted mode the divergence-peak finder returns exactly the interior
strict local maxima of the absolute-difference curve (each returned index strictly
greater than both immediate neighbors, first and last index excluded), without
duplicates, ordered descending in the difference-curve value; in particular, a
curve with no interior strict local maximum yields the empty list. -/
theorem findMaxDivergencePeaks_prefitted_characterization (x : List ℝ)
    (expTuple polyTuple : List ℝ × List ℝ) :
    (∀ i : ℕ,
      i ∈ findMaxDivergencePeaksFromFits x expTuple polyTuple ↔
        (0 < i ∧ i + 1 < (diffExpPoly x expTuple.1 polyTuple.1).length ∧
          (diffExpPoly x expTuple.1 polyTuple.1).getD (i - 1) 0 <
            (diffExpPoly x expTuple.1 polyTuple.1).getD i 0 ∧
          (diffExpPoly x expTuple.1 polyTuple.1).getD (i + 1) 0 <
            (diffExpPoly x expTuple.1 polyTuple.1).getD i 0)) ∧
    (findMaxDivergencePeaksFromFits x expTuple polyTuple).Nodup ∧
    (findMaxDivergencePeaksFromFits x expTuple polyTuple).Pairwise
      (fun i j => (diffExpPoly x expTuple.1 polyTuple.1).getD j 0 ≤
        (diffExpPoly x expTuple.1 polyTuple.1).getD i 0) := by
  have hshow : findMaxDivergencePeaksFromFits x expTuple polyTuple =
      pySortedByKeyDesc
        (fun i => (diffExpPoly x expTuple.1 polyTuple.1).getD i 0)
        (find_peaks (diffExpPoly x expTuple.1 polyTuple.1)) := rfl
  refine ⟨fun i => ?_, ?_, ?_⟩
  · rw [hshow, mem_pySortedByKeyDesc]
    exact mem_find_peaks _ i
  · rw [hshow]
    exact nodup_pySortedByKeyDesc _ _ (find_peaks_nodup _)
  · rw [hshow]
    exact pairwise_pySortedByKeyDesc _ _

end PyrCRT
